import Mathlib

/-!
Verification of `bin/validate-openapi-specs/Sources/OpenAPISchemaValidator/validate.py`,
a command-line tool that validates a JSON document against a named schema of an
OpenAPI 3.0 specification file.

The script itself is glue code: it declares three positional command-line
arguments, reads and parses the two files, validates the specification against
the OpenAPI 3.0 meta-schema, builds a reference resolver rooted at the
specification, looks up `components.schemas[<name>]` by plain dictionary
subscription, validates the target document against that schema, and prints
`OK`.  Any exception raised along the way is uncaught and terminates the
process with a non-zero exit status (Python exits with 1 on an uncaught
exception and argparse exits with 2 on a usage error).

The sequencing, the subscription chain and the success output are embedded
from the script source.  The behaviour of the external validation libraries
(`openapi_spec_validator.validate_spec`, `openapi_schema_validator.validate`
with `OAS30Validator`, `jsonschema.validators.RefResolver`) is not part of the
repository; those operations are modelled from the specification document, and
each such definition is marked `Modelled from the spec:` in its doc comment.
-/

namespace OpenAPISchemaValidator

/-- A JSON value, as produced by `json.load` or by parsing the OpenAPI
specification file: null, booleans, numbers (modelled as integers; the claims
do not depend on fractional values), strings, arrays, and objects as ordered
key/value lists. -/
inductive Json where
  | null : Json
  | bool (b : Bool) : Json
  | num (n : Int) : Json
  | str (s : String) : Json
  | arr (elems : List Json) : Json
  | obj (fields : List (String × Json)) : Json
deriving Repr

/-- Look up a key in a JSON object; `none` when the value is not an object or
the key is absent.  Mirrors `dict.get` on the parsed Python dictionaries. -/
def Json.getObj? : Json → String → Option Json
  | Json.obj fields, k => (fields.find? (fun p => p.1 == k)).map (fun p => p.2)
  | _, _ => none

/-- Python subscription `value[key]`, as used on line 43 of the script
(`spec_dict["components"]["schemas"][args.schema]`): raises `KeyError` when
the key is absent from the dictionary and `TypeError` when the value is not a
dictionary.  Both exceptions are uncaught, so the error is carried in
`Except`. -/
def subscript (j : Json) (k : String) : Except String Json :=
  match j with
  | Json.obj fields =>
    match fields.find? (fun p => p.1 == k) with
    | some p => Except.ok p.2
    | none => Except.error ("KeyError: " ++ k)
  | _ => Except.error ("TypeError: value is not subscriptable with key " ++ k)

/-- The subscription chain `spec_dict["components"]["schemas"][args.schema]`
from line 43 of the script; the first exception raised aborts the chain. -/
def schemaLookup (spec : Json) (name : String) : Except String Json :=
  match subscript spec "components" with
  | Except.error e => Except.error e
  | Except.ok comps =>
    match subscript comps "schemas" with
    | Except.error e => Except.error e
    | Except.ok schemas => subscript schemas name

/-- Whether a version string begins with `3.0`, character by character (the
OpenAPI 3.0 meta-schema accepts versions `3.0.x`). -/
def versionIs30 (v : String) : Bool :=
  match v.data with
  | '3' :: '.' :: '0' :: _ => true
  | _ => false

/-- Modelled from the spec: `openapi_spec_validator.validate_spec` with
`openapi_v30_spec_validator` checks that the loaded document conforms to the
OpenAPI 3.0 meta-schema ("confirm the OpenAPI document is well-formed per the
OpenAPI 3.0 meta-schema"; the spec names a missing `openapi` version field as
an example failure).  Modelled as requiring a top-level object carrying an
`openapi` version string starting with `3.0`, an `info` object and a `paths`
object; `components` is optional in the OpenAPI 3.0 meta-schema.  On failure
the library raises an uncaught validation error. -/
def validate_spec (spec : Json) : Except String Unit :=
  match spec with
  | Json.obj _ =>
    match Json.getObj? spec "openapi" with
    | some (Json.str v) =>
      if versionIs30 v then
        match Json.getObj? spec "info", Json.getObj? spec "paths" with
        | some (Json.obj _), some (Json.obj _) => Except.ok ()
        | _, _ => Except.error "OpenAPIValidationError: a required property is missing"
      else Except.error "OpenAPIValidationError: unsupported openapi version"
    | _ => Except.error "OpenAPIValidationError: openapi is a required property"
  | _ => Except.error "OpenAPIValidationError: specification is not an object"

/-- Modelled from the spec: `jsonschema.validators.RefResolver.from_schema`
builds "a reference-resolution context rooted at the loaded specification so
that any `$ref` strings inside the target schema are followed to their
definitions within the same document".  Modelled as a wrapper holding the root
document. -/
structure RefResolver where
  root : Json

/-- `RefResolver.from_schema(spec_dict)` from line 42 of the script: the
resolution context is rooted at the loaded specification document itself. -/
def RefResolver.from_schema (spec : Json) : RefResolver := RefResolver.mk spec

/-- Split a character sequence into the `/`-separated segments of a JSON
pointer. -/
def pointerSegments (cs : List Char) (acc : List Char) : List String :=
  match cs with
  | [] => [String.mk acc.reverse]
  | c :: rest =>
    if c == '/' then String.mk acc.reverse :: pointerSegments rest []
    else pointerSegments rest (c :: acc)

/-- Follow an internal JSON pointer such as `#/components/schemas/Name` from
the root of the resolution context; `none` when the pointer does not have the
internal `#/` form or some segment is absent. -/
def resolveRef (root : Json) (ptr : String) : Option Json :=
  match ptr.data with
  | '#' :: '/' :: rest => (pointerSegments rest []).foldlM Json.getObj? root
  | _ => none

/-- Whether a schema marks its instances as nullable (the OpenAPI 3.0
`nullable` keyword). -/
def isNullable (schema : Json) : Bool :=
  match Json.getObj? schema "nullable" with
  | some (Json.bool true) => true
  | _ => false

/-- Check the OpenAPI 3.0 `type` keyword: when the schema carries a `type`
string, the instance must belong to that primitive type (`integer` instances
also satisfy `number`).  A schema without a `type` keyword constrains
nothing here. -/
def checkType (schema doc : Json) : Except String Unit :=
  match Json.getObj? schema "type" with
  | some (Json.str t) =>
    let ok : Bool :=
      match t, doc with
      | "object", Json.obj _ => true
      | "array", Json.arr _ => true
      | "string", Json.str _ => true
      | "integer", Json.num _ => true
      | "number", Json.num _ => true
      | "boolean", Json.bool _ => true
      | _, _ => false
    if ok then Except.ok ()
    else Except.error ("ValidationError: instance is not of type " ++ t)
  | _ => Except.ok ()

/-- Check the `required` keyword: when the instance is an object, every string
listed under `required` must appear among its keys.  As in JSON Schema, the
keyword is vacuous on non-object instances. -/
def checkRequired (schema doc : Json) : Except String Unit :=
  match Json.getObj? schema "required", doc with
  | some (Json.arr names), Json.obj fields =>
    let missing := names.find? (fun n =>
      match n with
      | Json.str s => (fields.find? (fun p => p.1 == s)).isNone
      | _ => false)
    match missing with
    | some (Json.str s) => Except.error ("ValidationError: " ++ s ++ " is a required property")
    | _ => Except.ok ()
  | _, _ => Except.ok ()

/-- Modelled from the spec: `openapi_schema_validator.validate` with
`OAS30Validator` and the reference resolver — "Validate the loaded JSON
document against that resolved schema using OpenAPI-3.0 validation semantics
(e.g., `nullable` ...)", following any `$ref` string inside the schema to its
definition within the same document.  Modelled over the keywords `$ref`,
`nullable`, `type` and `required`; as in the library, a schema carrying
`$ref` delegates entirely to the referenced schema.  The fuel bounds reference
chasing (Python's recursion limit); on failure the library raises an
uncaught validation error. -/
def validateDoc (fuel : Nat) (root schema doc : Json) : Except String Unit :=
  match fuel with
  | 0 => Except.error "RecursionError: maximum reference depth exceeded"
  | Nat.succ fuel =>
    match Json.getObj? schema "$ref" with
    | some (Json.str ptr) =>
      match resolveRef root ptr with
      | some target => validateDoc fuel root target doc
      | none => Except.error ("RefResolutionError: unresolvable reference " ++ ptr)
    | _ =>
      if isNullable schema && (match doc with | Json.null => true | _ => false) then
        Except.ok ()
      else
        match checkType schema doc with
        | Except.error e => Except.error e
        | Except.ok _ => checkRequired schema doc

/-- The positional arguments declared on the `argparse.ArgumentParser` by
lines 31-33 of the script, in declaration order. -/
def declaredPositionals : List String := ["spec", "json", "schema"]

/-- The optional arguments declared on the parser by the script: none (lines
27-33 declare only the three positionals). -/
def declaredOptionals : List String := []

/-- `parser.parse_args()` over the declared arguments: with exactly three
positional arguments declared and no optional ones, parsing succeeds exactly
on a three-element argument vector `(spec, json, schema)`; otherwise argparse
reports a usage error on the error stream and exits with status 2, before the
script performs any file access. -/
def parseArgs (argv : List String) : Option (String × String × String) :=
  match argv with
  | [spec, jsonPath, schema] => some (spec, jsonPath, schema)
  | _ => none

/-- One invocation of the tool, as the script sees it: the argument vector and
the results of the two file reads.  `specSrc` is the outcome of
`read_from_filename(args.spec)` (line 37): `some` the parsed specification
document, or `none` when the file is unreadable or unparsable.  `jsonSrc` is
the outcome of `json.load(open(args.json))` (line 38): `some` the parsed
target document, or `none` when the file is unreadable or its content is not
valid JSON. -/
structure Env where
  argv : List String
  specSrc : Option Json
  jsonSrc : Option Json

/-- The observable steps of one invocation, in the order the script performs
them (lines 35-44). -/
inductive Event where
  | argsParsed
  | specFileRead
  | jsonFileLoaded
  | specValidated
  | resolverBuilt
  | schemaLookedUp
  | documentValidationRun
  | okPrinted
deriving DecidableEq, Repr

/-- What one invocation produces: the process exit status, the standard
output, the standard error text (uncaught Python exceptions print their
description there; argparse prints its usage error there), and the trace of
completed steps. -/
structure RunResult where
  exitCode : Nat
  stdout : String
  stderr : String
  events : List Event
deriving DecidableEq, Repr

/-- Reference-chasing budget used when running the document validator inside
the pipeline (stands for Python's recursion limit; no claim depends on its
exact value). -/
def defaultFuel : Nat := 100

/-- The script, line by line (lines 35-44): parse the arguments, read the
specification file, load the JSON file, validate the specification against
the OpenAPI 3.0 meta-schema, build the reference resolver rooted at the
specification, subscript `spec_dict["components"]["schemas"][args.schema]`,
validate the document, print `OK`.  Every failure is an uncaught exception:
the process stops at that line with exit status 1 (status 2 for the argparse
usage error) and nothing on standard output. -/
def run (env : Env) : RunResult :=
  match parseArgs env.argv with
  | none =>
    RunResult.mk 2 "" "usage: openapi-validator spec json schema" []
  | some (_, _, schemaName) =>
    match env.specSrc with
    | none =>
      RunResult.mk 1 "" "OpenAPIError: failed to read the specification file"
        [Event.argsParsed]
    | some spec =>
      match env.jsonSrc with
      | none =>
        RunResult.mk 1 "" "JSONDecodeError: failed to load the JSON file"
          [Event.argsParsed, Event.specFileRead]
      | some doc =>
        match validate_spec spec with
        | Except.error e =>
          RunResult.mk 1 "" e
            [Event.argsParsed, Event.specFileRead, Event.jsonFileLoaded]
        | Except.ok _ =>
          let resolver := RefResolver.from_schema spec
          match schemaLookup spec schemaName with
          | Except.error e =>
            RunResult.mk 1 "" e
              [Event.argsParsed, Event.specFileRead, Event.jsonFileLoaded,
               Event.specValidated, Event.resolverBuilt]
          | Except.ok schema =>
            match validateDoc defaultFuel resolver.root schema doc with
            | Except.error e =>
              RunResult.mk 1 "" e
                [Event.argsParsed, Event.specFileRead, Event.jsonFileLoaded,
                 Event.specValidated, Event.resolverBuilt, Event.schemaLookedUp,
                 Event.documentValidationRun]
            | Except.ok _ =>
              RunResult.mk 0 "OK\n" ""
                [Event.argsParsed, Event.specFileRead, Event.jsonFileLoaded,
                 Event.specValidated, Event.resolverBuilt, Event.schemaLookedUp,
                 Event.documentValidationRun, Event.okPrinted]

/-- Modelled from the spec: the document validator call on line 43 treats both
the specification (through the resolver) and the target document read-only —
"validated, never mutated" / "immutable once loaded".  The call is embedded
with explicit value passing: it returns its outcome together with the
specification and document values as they stand after the call. -/
def validateCall (fuel : Nat) (resolver : RefResolver) (schema doc : Json) :
    Except String Unit × Json × Json :=
  (validateDoc fuel resolver.root schema doc, resolver.root, doc)

/-! Concrete fixtures used to instantiate the theorems below. -/

/-- A sample schema: an object with a required `text` property. -/
def msgSchema : Json :=
  Json.obj [("type", Json.str "object"), ("required", Json.arr [Json.str "text"])]

/-- A sample schema that is nothing but an internal reference to
`#/components/schemas/Message`. -/
def wrapperSchema : Json :=
  Json.obj [("$ref", Json.str "#/components/schemas/Message")]

/-- A sample well-formed OpenAPI 3.0 specification carrying the two schemas
above under `components.schemas`. -/
def sampleSpec : Json :=
  Json.obj
    [("openapi", Json.str "3.0.0"), ("info", Json.obj []), ("paths", Json.obj []),
     ("components", Json.obj [("schemas", Json.obj
       [("Message", msgSchema), ("Wrapper", wrapperSchema)])])]

/-- A sample target document conforming to `msgSchema`. -/
def goodDoc : Json := Json.obj [("text", Json.str "hi")]

/-- A sample target document violating `msgSchema` (the required `text`
property is absent). -/
def badDoc : Json := Json.obj [("other", Json.num 3)]

/-- A sample specification that passes OpenAPI 3.0 meta-schema validation but
carries no `components` key at all. -/
def noComponentsSpec : Json :=
  Json.obj [("openapi", Json.str "3.0.1"), ("info", Json.obj []), ("paths", Json.obj [])]

/-- A sample document that is not a valid OpenAPI 3.0 specification (wrong
`openapi` version). -/
def invalidSpec : Json := Json.obj [("openapi", Json.str "2.0")]

/-! Helper lemmas about subscription. -/

/-- A successful `Json.getObj?` lookup yields a successful subscription. -/
theorem subscript_of_getObj? {j : Json} {k : String} {v : Json}
    (h : Json.getObj? j k = some v) : subscript j k = Except.ok v := by
  cases j with
  | obj fields =>
    simp only [Json.getObj?, Option.map_eq_some'] at h
    obtain ⟨p, hp, hv⟩ := h
    simp [subscript, hp, hv]
  | null => simp [Json.getObj?] at h
  | bool b => simp [Json.getObj?] at h
  | num n => simp [Json.getObj?] at h
  | str s => simp [Json.getObj?] at h
  | arr elems => simp [Json.getObj?] at h

/-- Subscribing an object with a key that belongs to none of its fields
raises exactly a `KeyError` naming that key. -/
theorem subscript_keyError_of_absent {fields : List (String × Json)} {k : String}
    (h : ∀ p ∈ fields, p.1 ≠ k) :
    subscript (Json.obj fields) k = Except.error ("KeyError: " ++ k) := by
  have hf : fields.find? (fun p => p.1 == k) = none := by
    rw [List.find?_eq_none]
    intro p hp
    simpa using h p hp
  simp [subscript, hf]

/-- On an object, an empty `Json.getObj?` lookup means the key is absent, so
subscription raises a `KeyError` naming it. -/
theorem subscript_keyError_of_getObj?_none {fields : List (String × Json)} {k : String}
    (h : Json.getObj? (Json.obj fields) k = none) :
    subscript (Json.obj fields) k = Except.error ("KeyError: " ++ k) := by
  simp only [Json.getObj?, Option.map_eq_none'] at h
  simp [subscript, h]

/-- A specification accepted by the OpenAPI 3.0 meta-schema is a JSON
object. -/
theorem validate_spec_ok_obj {spec : Json} (h : validate_spec spec = Except.ok ()) :
    ∃ fields, spec = Json.obj fields := by
  cases spec with
  | obj fields => exact ⟨fields, rfl⟩
  | null => simp [validate_spec] at h
  | bool b => simp [validate_spec] at h
  | num n => simp [validate_spec] at h
  | str s => simp [validate_spec] at h
  | arr elems => simp [validate_spec] at h

/-! The claims. -/

/-- C1: for every invocation where the spec file parses as a valid OpenAPI
3.0 document and the JSON document conforms to the schema named by the third
argument (with internal `$ref` pointers resolved), the program prints exactly
`OK` (one line on standard output) and exits with status 0. -/
theorem c1_valid_inputs_print_ok (env : Env) (p q name : String) (spec doc schema : Json)
    (hargs : parseArgs env.argv = some (p, q, name))
    (hspec : env.specSrc = some spec)
    (hjson : env.jsonSrc = some doc)
    (hvalid : validate_spec spec = Except.ok ())
    (hlook : schemaLookup spec name = Except.ok schema)
    (hdoc : validateDoc defaultFuel (RefResolver.from_schema spec).root schema doc = Except.ok ()) :
    (run env).exitCode = 0 ∧ (run env).stdout = "OK\n" := by
  simp [run, RefResolver.from_schema, hargs, hspec, hjson, hvalid, hlook,
    RefResolver.from_schema] at hdoc ⊢
  simp [hdoc]

/-- Witness for C1 at the sample spec, sample document and schema name
`Message`. -/
theorem c1_valid_inputs_print_ok_witness :
    (run (Env.mk ["s.json", "d.json", "Message"] (some sampleSpec) (some goodDoc))).exitCode = 0 ∧
    (run (Env.mk ["s.json", "d.json", "Message"] (some sampleSpec) (some goodDoc))).stdout = "OK\n" :=
  c1_valid_inputs_print_ok
    (Env.mk ["s.json", "d.json", "Message"] (some sampleSpec) (some goodDoc))
    "s.json" "d.json" "Message" sampleSpec goodDoc msgSchema
    rfl rfl rfl rfl rfl rfl

/-- C2: for every JSON document that violates the named schema, the
document-validation error propagates uncaught — the process terminates with a
non-zero exit status, nothing is printed on standard output (in particular not
`OK`), and the error text on the error stream is exactly the validator's
report. -/
theorem c2_doc_validation_error_propagates (env : Env) (p q name : String)
    (spec doc schema : Json) (e : String)
    (hargs : parseArgs env.argv = some (p, q, name))
    (hspec : env.specSrc = some spec)
    (hjson : env.jsonSrc = some doc)
    (hvalid : validate_spec spec = Except.ok ())
    (hlook : schemaLookup spec name = Except.ok schema)
    (hdoc : validateDoc defaultFuel (RefResolver.from_schema spec).root schema doc =
      Except.error e) :
    (run env).exitCode = 1 ∧ (run env).stdout = "" ∧ (run env).stderr = e := by
  simp [RefResolver.from_schema] at hdoc
  simp [run, hargs, hspec, hjson, hvalid, hlook, RefResolver.from_schema, hdoc]

/-- Witness for C2 at the sample spec and a document missing the required
`text` property. -/
theorem c2_doc_validation_error_propagates_witness :
    (run (Env.mk ["s.json", "d.json", "Message"] (some sampleSpec) (some badDoc))).exitCode = 1 ∧
    (run (Env.mk ["s.json", "d.json", "Message"] (some sampleSpec) (some badDoc))).stdout = "" ∧
    (run (Env.mk ["s.json", "d.json", "Message"] (some sampleSpec) (some badDoc))).stderr =
      "ValidationError: text is a required property" :=
  c2_doc_validation_error_propagates
    (Env.mk ["s.json", "d.json", "Message"] (some sampleSpec) (some badDoc))
    "s.json" "d.json" "Message" sampleSpec badDoc msgSchema
    "ValidationError: text is a required property"
    rfl rfl rfl rfl rfl rfl

/-- C3: for every schema name absent from the keys of the spec's
`components.schemas` mapping, the lookup fails with a `KeyError` naming
exactly the requested name (no fuzzy matching, no default schema), the
process exits non-zero with that error, and document validation is never
run. -/
theorem c3_missing_schema_name_key_error (env : Env) (p q name : String)
    (spec doc comps : Json) (schemaList : List (String × Json))
    (hargs : parseArgs env.argv = some (p, q, name))
    (hspec : env.specSrc = some spec)
    (hjson : env.jsonSrc = some doc)
    (hvalid : validate_spec spec = Except.ok ())
    (hcomps : Json.getObj? spec "components" = some comps)
    (hschemas : Json.getObj? comps "schemas" = some (Json.obj schemaList))
    (habsent : ∀ entry ∈ schemaList, entry.1 ≠ name) :
    schemaLookup spec name = Except.error ("KeyError: " ++ name) ∧
    (run env).exitCode = 1 ∧ (run env).stdout = "" ∧
    (run env).stderr = ("KeyError: " ++ name) ∧
    Event.documentValidationRun ∉ (run env).events := by
  have hl : schemaLookup spec name = Except.error ("KeyError: " ++ name) := by
    simp [schemaLookup, subscript_of_getObj? hcomps, subscript_of_getObj? hschemas,
      subscript_keyError_of_absent habsent]
  refine ⟨hl, ?_⟩
  simp [run, hargs, hspec, hjson, hvalid, hl]

/-- Witness for C3 at the sample spec and the absent schema name `Nope`. -/
theorem c3_missing_schema_name_key_error_witness :
    schemaLookup sampleSpec "Nope" = Except.error ("KeyError: " ++ "Nope") ∧
    (run (Env.mk ["s.json", "d.json", "Nope"] (some sampleSpec) (some goodDoc))).exitCode = 1 ∧
    (run (Env.mk ["s.json", "d.json", "Nope"] (some sampleSpec) (some goodDoc))).stdout = "" ∧
    (run (Env.mk ["s.json", "d.json", "Nope"] (some sampleSpec) (some goodDoc))).stderr =
      ("KeyError: " ++ "Nope") ∧
    Event.documentValidationRun ∉
      (run (Env.mk ["s.json", "d.json", "Nope"] (some sampleSpec) (some goodDoc))).events :=
  c3_missing_schema_name_key_error
    (Env.mk ["s.json", "d.json", "Nope"] (some sampleSpec) (some goodDoc))
    "s.json" "d.json" "Nope" sampleSpec goodDoc
    (Json.obj [("schemas", Json.obj [("Message", msgSchema), ("Wrapper", wrapperSchema)])])
    [("Message", msgSchema), ("Wrapper", wrapperSchema)]
    rfl rfl rfl rfl rfl rfl (by decide)

/-- C4: for every spec file that parses but is not a valid OpenAPI 3.0
document, the process exits non-zero at the meta-schema validation step: the
trace ends with that step, so schema lookup and validation of the target
document against the schema are never attempted. -/
theorem c4_invalid_spec_stops_before_doc_validation (env : Env) (p q name : String)
    (spec doc : Json) (e : String)
    (hargs : parseArgs env.argv = some (p, q, name))
    (hspec : env.specSrc = some spec)
    (hjson : env.jsonSrc = some doc)
    (hinvalid : validate_spec spec = Except.error e) :
    (run env).exitCode ≠ 0 ∧
    (run env).events = [Event.argsParsed, Event.specFileRead, Event.jsonFileLoaded] ∧
    Event.schemaLookedUp ∉ (run env).events ∧
    Event.documentValidationRun ∉ (run env).events := by
  simp [run, hargs, hspec, hjson, hinvalid]

/-- Witness for C4 at a spec with an unsupported `openapi` version. -/
theorem c4_invalid_spec_stops_before_doc_validation_witness :
    (run (Env.mk ["s.json", "d.json", "Message"] (some invalidSpec) (some goodDoc))).exitCode ≠ 0 ∧
    (run (Env.mk ["s.json", "d.json", "Message"] (some invalidSpec) (some goodDoc))).events =
      [Event.argsParsed, Event.specFileRead, Event.jsonFileLoaded] ∧
    Event.schemaLookedUp ∉
      (run (Env.mk ["s.json", "d.json", "Message"] (some invalidSpec) (some goodDoc))).events ∧
    Event.documentValidationRun ∉
      (run (Env.mk ["s.json", "d.json", "Message"] (some invalidSpec) (some goodDoc))).events :=
  c4_invalid_spec_stops_before_doc_validation
    (Env.mk ["s.json", "d.json", "Message"] (some invalidSpec) (some goodDoc))
    "s.json" "d.json" "Message" invalidSpec goodDoc
    "OpenAPIValidationError: unsupported openapi version"
    rfl rfl rfl rfl

/-- C5: for every schema containing an internal `$ref` pointer, the pointer
is resolved against the resolution context rooted at the loaded specification
document itself, and every target document satisfying the dereferenced
definition validates successfully. -/
theorem c5_internal_ref_resolved_against_spec_root (spec schema target doc : Json)
    (ptr : String) (fuel : Nat)
    (href : Json.getObj? schema "$ref" = some (Json.str ptr))
    (hres : resolveRef (RefResolver.from_schema spec).root ptr = some target)
    (hok : validateDoc fuel (RefResolver.from_schema spec).root target doc = Except.ok ()) :
    validateDoc (fuel + 1) (RefResolver.from_schema spec).root schema doc = Except.ok () := by
  simp only [RefResolver.from_schema] at hres hok ⊢
  simp [validateDoc, href, hres, hok]

/-- Witness for C5: the `Wrapper` schema of the sample spec refers to
`Message`, and the sample document satisfies the dereferenced definition. -/
theorem c5_internal_ref_resolved_against_spec_root_witness :
    validateDoc (3 + 1) (RefResolver.from_schema sampleSpec).root wrapperSchema goodDoc =
      Except.ok () :=
  c5_internal_ref_resolved_against_spec_root sampleSpec wrapperSchema msgSchema goodDoc
    "#/components/schemas/Message" 3 rfl rfl rfl

/-- C6: the command-line parser declares exactly the three positional
arguments `spec`, `json`, `schema` and no optional flags; every invocation
missing one of them fails at argument parsing with a usage error and exit
status 2, with an empty trace — in particular before any file access. -/
theorem c6_missing_argument_usage_error (argv : List String) (s j : Option Json)
    (h : argv.length < declaredPositionals.length) :
    declaredPositionals = ["spec", "json", "schema"] ∧ declaredOptionals = [] ∧
    parseArgs argv = none ∧
    (run (Env.mk argv s j)).exitCode = 2 ∧
    (run (Env.mk argv s j)).stdout = "" ∧
    (run (Env.mk argv s j)).events = [] := by
  rcases argv with _ | ⟨a, _ | ⟨b, _ | ⟨c, _ | ⟨d, rest⟩⟩⟩⟩ <;>
    simp_all [declaredPositionals, declaredOptionals, parseArgs, run]

/-- Witness for C6 at a two-argument invocation. -/
theorem c6_missing_argument_usage_error_witness :
    ["s.json", "d.json"].length < declaredPositionals.length ∧
    (declaredPositionals = ["spec", "json", "schema"] ∧ declaredOptionals = [] ∧
     parseArgs ["s.json", "d.json"] = none ∧
     (run (Env.mk ["s.json", "d.json"] (some sampleSpec) (some goodDoc))).exitCode = 2 ∧
     (run (Env.mk ["s.json", "d.json"] (some sampleSpec) (some goodDoc))).stdout = "" ∧
     (run (Env.mk ["s.json", "d.json"] (some sampleSpec) (some goodDoc))).events = []) :=
  ⟨by decide,
   c6_missing_argument_usage_error ["s.json", "d.json"] (some sampleSpec) (some goodDoc)
     (by decide)⟩

/-- C7: passing OpenAPI 3.0 meta-schema validation does not guarantee the
presence of a `components.schemas` mapping: when the validated spec lacks a
`components` key, or its `components` object lacks a `schemas` key, the
subscription chain raises an uncaught `KeyError` naming the missing key, the
process exits non-zero printing nothing, and document validation is never
run — no separate check enforces the precondition. -/
theorem c7_valid_spec_may_lack_components (env : Env) (p q name : String)
    (spec doc : Json)
    (hargs : parseArgs env.argv = some (p, q, name))
    (hspec : env.specSrc = some spec)
    (hjson : env.jsonSrc = some doc)
    (hvalid : validate_spec spec = Except.ok ())
    (hmiss : Json.getObj? spec "components" = none ∨
      ∃ fields, Json.getObj? spec "components" = some (Json.obj fields) ∧
        Json.getObj? (Json.obj fields) "schemas" = none) :
    ∃ k, schemaLookup spec name = Except.error ("KeyError: " ++ k) ∧
      (run env).exitCode = 1 ∧ (run env).stdout = "" ∧
      (run env).stderr = ("KeyError: " ++ k) ∧
      Event.documentValidationRun ∉ (run env).events := by
  obtain ⟨fields, hform⟩ := validate_spec_ok_obj hvalid
  subst hform
  rcases hmiss with hnone | ⟨cfields, hcomps, hnone⟩
  · refine ⟨"components", ?_⟩
    have hl : schemaLookup (Json.obj fields) name =
        Except.error ("KeyError: " ++ "components") := by
      simp [schemaLookup, subscript_keyError_of_getObj?_none hnone]
    refine ⟨hl, ?_⟩
    simp [run, hargs, hspec, hjson, hvalid, hl]
  · refine ⟨"schemas", ?_⟩
    have hl : schemaLookup (Json.obj fields) name =
        Except.error ("KeyError: " ++ "schemas") := by
      simp [schemaLookup, subscript_of_getObj? hcomps,
        subscript_keyError_of_getObj?_none hnone]
    refine ⟨hl, ?_⟩
    simp [run, hargs, hspec, hjson, hvalid, hl]

/-- Witness for C7 at a meta-schema-valid spec with no `components` key. -/
theorem c7_valid_spec_may_lack_components_witness :
    ∃ k, schemaLookup noComponentsSpec "Message" = Except.error ("KeyError: " ++ k) ∧
      (run (Env.mk ["s.json", "d.json", "Message"] (some noComponentsSpec)
        (some goodDoc))).exitCode = 1 ∧
      (run (Env.mk ["s.json", "d.json", "Message"] (some noComponentsSpec)
        (some goodDoc))).stdout = "" ∧
      (run (Env.mk ["s.json", "d.json", "Message"] (some noComponentsSpec)
        (some goodDoc))).stderr = ("KeyError: " ++ k) ∧
      Event.documentValidationRun ∉
        (run (Env.mk ["s.json", "d.json", "Message"] (some noComponentsSpec)
          (some goodDoc))).events :=
  c7_valid_spec_may_lack_components
    (Env.mk ["s.json", "d.json", "Message"] (some noComponentsSpec) (some goodDoc))
    "s.json" "d.json" "Message" noComponentsSpec goodDoc
    rfl rfl rfl rfl (Or.inl rfl)

/-- C8: the target JSON file is loaded (line 38) before the specification is
validated against the meta-schema (line 40): when `json.load` fails, the
process stops with that load error even when the specification is itself
structurally invalid, and spec validation is never reached. -/
theorem c8_json_loaded_before_spec_validation (env : Env) (p q name : String)
    (spec : Json) (e : String)
    (hargs : parseArgs env.argv = some (p, q, name))
    (hspec : env.specSrc = some spec)
    (_hinvalid : validate_spec spec = Except.error e)
    (hjson : env.jsonSrc = none) :
    (run env).exitCode = 1 ∧
    (run env).stderr = "JSONDecodeError: failed to load the JSON file" ∧
    (run env).events = [Event.argsParsed, Event.specFileRead] ∧
    Event.specValidated ∉ (run env).events := by
  simp [run, hargs, hspec, hjson]

/-- Witness for C8 at an invalid spec and an unloadable JSON file. -/
theorem c8_json_loaded_before_spec_validation_witness :
    (run (Env.mk ["s.json", "d.json", "Message"] (some invalidSpec) none)).exitCode = 1 ∧
    (run (Env.mk ["s.json", "d.json", "Message"] (some invalidSpec) none)).stderr =
      "JSONDecodeError: failed to load the JSON file" ∧
    (run (Env.mk ["s.json", "d.json", "Message"] (some invalidSpec) none)).events =
      [Event.argsParsed, Event.specFileRead] ∧
    Event.specValidated ∉
      (run (Env.mk ["s.json", "d.json", "Message"] (some invalidSpec) none)).events :=
  c8_json_loaded_before_spec_validation
    (Env.mk ["s.json", "d.json", "Message"] (some invalidSpec) none)
    "s.json" "d.json" "Message" invalidSpec
    "OpenAPIValidationError: unsupported openapi version"
    rfl rfl rfl rfl

/-- C9: the program is deterministic across runs: two invocations with the
same spec file content, the same JSON file content and the same schema-name
argument (the two path arguments may differ) produce the same exit status and
the same standard output — the embedding carries no state between runs. -/
theorem c9_deterministic_across_runs (e₁ e₂ : Env) (p₁ q₁ p₂ q₂ name : String)
    (h₁ : parseArgs e₁.argv = some (p₁, q₁, name))
    (h₂ : parseArgs e₂.argv = some (p₂, q₂, name))
    (hs : e₁.specSrc = e₂.specSrc)
    (hj : e₁.jsonSrc = e₂.jsonSrc) :
    (run e₁).exitCode = (run e₂).exitCode ∧ (run e₁).stdout = (run e₂).stdout := by
  simp only [run, h₁, h₂, hs, hj]
  exact ⟨trivial, trivial⟩

/-- Witness for C9 at two invocations differing only in their path
arguments. -/
theorem c9_deterministic_across_runs_witness :
    (run (Env.mk ["a.json", "b.json", "Message"] (some sampleSpec) (some goodDoc))).exitCode =
      (run (Env.mk ["c.json", "d.json", "Message"] (some sampleSpec) (some goodDoc))).exitCode ∧
    (run (Env.mk ["a.json", "b.json", "Message"] (some sampleSpec) (some goodDoc))).stdout =
      (run (Env.mk ["c.json", "d.json", "Message"] (some sampleSpec) (some goodDoc))).stdout :=
  c9_deterministic_across_runs
    (Env.mk ["a.json", "b.json", "Message"] (some sampleSpec) (some goodDoc))
    (Env.mk ["c.json", "d.json", "Message"] (some sampleSpec) (some goodDoc))
    "a.json" "b.json" "c.json" "d.json" "Message"
    rfl rfl rfl rfl

/-- C10: the loaded specification document (the resolver's root) and the
loaded target JSON value are never mutated by the document validator: the
values after the call are the very values passed in, whether the validation
outcome is success or an error. -/
theorem c10_documents_not_mutated (fuel : Nat) (resolver : RefResolver) (schema doc : Json) :
    (validateCall fuel resolver schema doc).2 = (resolver.root, doc) ∧
    (validateCall fuel resolver schema doc).1 = validateDoc fuel resolver.root schema doc :=
  ⟨rfl, rfl⟩

end OpenAPISchemaValidator
